import Mathlib

/-!
Verification of the per-file cleaning-and-conversion pipeline of `app.py`
(the "Data Sweeper" Streamlit application).

The pipeline (`process_file` in `app.py`) loads an uploaded CSV/Excel file
into a pandas DataFrame, normalizes column dtypes (`convert_dtypes` plus an
`astype(str)` pass over the columns that remain object-typed), optionally
removes duplicate rows and mean-fills missing numeric values, projects to a
user-chosen column subset, and serializes the result to CSV or Excel bytes.

This file gives a shallow embedding of that pipeline:

* `Df` is the in-memory table: ordered column names, per-column dtypes, and
  row-major cells.  Cells are missing (`na`), integers, exact rationals
  (standing for float64 values), or strings.
* pandas / Python primitives that the script calls are modelled one-for-one:
  `read_csv_simple` models `pandas.read_csv` on the simple unquoted inputs
  exercised here, `convert_dtypes` models `DataFrame.convert_dtypes`,
  `fillMissingNumeric` models the `df[num] = df[num].fillna(df[num].mean())`
  statement (including the `TypeError` that pandas masked integer arrays
  raise when the fill value is a non-integral float), `pyReplace` models
  `str.replace`, `splitextExt` models `os.path.splitext(...)[-1]`, and so on.
* `process_file` and `runSession` model the per-file function and the
  `for file in uploaded_files` loop, with the `try/except` of the load phase
  and the absence of any exception handler around the later phases.

Exact rationals replace IEEE float64 arithmetic; every numeric value reached
by the concrete scenarios below is exactly representable, so no rounding
divergence arises.
-/

namespace DataSweeper

/-- Exact rational numbers in lowest terms, standing for Python/Numpy float64
values.  All constructors in this development go through `pyRatMk`, so
structural equality coincides with numeric equality. -/
structure PyRat where
  num : Int
  den : Nat
deriving DecidableEq

/-- Smart constructor: normalize `n / d` to lowest terms (`d ≠ 0` in all uses). -/
def pyRatMk (n : Int) (d : Nat) : PyRat :=
  let g := Nat.gcd n.natAbs d
  if g = 0 then ⟨0, 1⟩ else ⟨n / (g : Int), d / g⟩

def pyRatOfInt (n : Int) : PyRat := ⟨n, 1⟩

def pyRatAdd (a b : PyRat) : PyRat :=
  pyRatMk (a.num * (b.den : Int) + b.num * (a.den : Int)) (a.den * b.den)

/-- Division of a rational by a positive natural (used for column means). -/
def pyRatDivNat (a : PyRat) (k : Nat) : PyRat := pyRatMk a.num (a.den * k)

def pyRatNeg (a : PyRat) : PyRat := ⟨-a.num, a.den⟩

/-- Decidable equality for `Except`, by cases (kernel-reducible, so `decide`
can evaluate pipeline results). -/
instance {ε α : Type} [DecidableEq ε] [DecidableEq α] : DecidableEq (Except ε α) :=
  fun a b =>
  match a, b with
  | .error x, .error y =>
    if h : x = y then .isTrue (h ▸ rfl) else .isFalse (fun hh => h (by cases hh; rfl))
  | .error _, .ok _ => .isFalse (fun hh => Except.noConfusion hh)
  | .ok _, .error _ => .isFalse (fun hh => Except.noConfusion hh)
  | .ok x, .ok y =>
    if h : x = y then .isTrue (h ▸ rfl) else .isFalse (fun hh => h (by cases hh; rfl))

/-! ### Python string primitives

Character-list implementations of the Python string operations the script
uses, kept structurally recursive so that the kernel can evaluate them. -/

/-- Split a character list on a separator character (models `str.split(sep)`
for a one-character separator, as used for lines and CSV fields). -/
def splitOnChar (sep : Char) : List Char → List (List Char)
  | [] => [[]]
  | c :: rest =>
    match splitOnChar sep rest with
    | [] => [[]]
    | cur :: done => if c = sep then [] :: cur :: done else (c :: cur) :: done

/-- ASCII lower-casing (models `str.lower()` on the ASCII file names used). -/
def strToLowerAscii (s : String) : String := ⟨s.data.map Char.toLower⟩

def natToStrAux : Nat → Nat → List Char
  | 0, _ => []
  | fuel + 1, n =>
    if n < 10 then [Nat.digitChar n]
    else natToStrAux fuel (n / 10) ++ [Nat.digitChar (n % 10)]

/-- Decimal rendering of a natural number (models `str(n)`). -/
def natToStr (n : Nat) : String := ⟨natToStrAux (n + 1) n⟩

/-- Decimal rendering of an integer (models `str(i)`). -/
def intToStr (i : Int) : String :=
  if i < 0 then "-" ++ natToStr i.natAbs else natToStr i.natAbs

/-- Pad a digit string with leading zeros up to width `k`. -/
def padZeros (s : String) (k : Nat) : String :=
  ⟨List.replicate (k - s.data.length) '0' ++ s.data⟩

/-- Join strings with a separator (models `sep.join(parts)`). -/
def joinSep (sep : String) : List String → String
  | [] => ""
  | [x] => x
  | x :: xs => x ++ sep ++ joinSep sep xs

def pyReplaceAux (pat repl : List Char) : Nat → List Char → List Char
  | 0, l => l
  | fuel + 1, l =>
    match l with
    | [] => []
    | c :: rest =>
      if pat.isPrefixOf (c :: rest) then repl ++ pyReplaceAux pat repl fuel ((c :: rest).drop pat.length)
      else c :: pyReplaceAux pat repl fuel rest

/-- Python `s.replace(pat, repl)`: replace every non-overlapping occurrence of
`pat`, scanning left to right.  (The fuel `s.length + 1` suffices because every
step consumes at least one character when `pat` is nonempty; the script only
calls this with nonempty extension patterns.) -/
def pyReplace (s pat repl : String) : String :=
  if pat.data = [] then s else ⟨pyReplaceAux pat.data repl.data (s.data.length + 1) s.data⟩

/-- The extension part of `os.path.splitext(name)` for names without directory
separators: everything from the last dot on, unless every character before
that dot is itself a dot (so `"data.csv" ↦ ".csv"`, `"archive" ↦ ""`,
`".bashrc" ↦ ""`). -/
def splitextExt (s : String) : String :=
  let r := s.data.reverse
  let after := r.takeWhile (fun c => c ≠ '.')
  match r.drop after.length with
  | [] => ""
  | _ :: before => if before.any (fun c => c ≠ '.') then ⟨'.' :: after.reverse⟩ else ""

/-- Python `repr` of a float64 value, modelled exactly for values that are
finite decimals with at most 17 fractional digits (every float reached in this
development is such a value; the shortest-round-trip repr of other IEEE
doubles is out of scope and falls back to a fraction rendering). -/
def floatRepr (q : PyRat) : String :=
  if q.den = 1 then intToStr q.num ++ ".0"
  else
    match (List.range 18).find? (fun k => q.den ∣ 10 ^ k) with
    | some k =>
      let m := q.num.natAbs * (10 ^ k / q.den)
      let sign := if q.num < 0 then "-" else ""
      sign ++ natToStr (m / 10 ^ k) ++ "." ++ padZeros (natToStr (m % 10 ^ k)) k
    | none => intToStr q.num ++ "/" ++ natToStr q.den

/-! ### Data model -/

/-- Column dtypes that occur in the pipeline: the numpy dtypes produced by the
readers (`int64`, `float64`, `objectD` for `object`) and the nullable
extension dtypes produced by `convert_dtypes` (`intN` for `Int64`, `floatN`
for `Float64`, `stringN` for `string`). -/
inductive Dtype
  | int64
  | float64
  | objectD
  | intN
  | floatN
  | stringN
deriving DecidableEq

/-- One cell: missing (NaN / pd.NA), an integer, a float64 value (exact
rational model), or a string. -/
inductive Cell
  | na
  | int (i : Int)
  | float (q : PyRat)
  | str (s : String)
deriving DecidableEq

/-- The in-memory DataFrame: ordered column names, per-column dtypes, and
row-major cells (each row lists its cells in column order). -/
structure Df where
  names : List String
  dtypes : List Dtype
  rows : List (List Cell)
deriving DecidableEq

/-- Structural well-formedness: one dtype per column and rectangular rows. -/
def Df.WF (df : Df) : Prop :=
  df.dtypes.length = df.names.length ∧ ∀ r ∈ df.rows, r.length = df.names.length

instance (df : Df) : Decidable df.WF := by
  unfold Df.WF; infer_instance

/-- The cells of column `j`, top to bottom. -/
def colCells (df : Df) (j : Nat) : List Cell :=
  df.rows.map (fun r => r.getD j Cell.na)

/-! ### Table Engine: CSV reader

`read_csv_simple` models `pandas.read_csv` restricted to the simple inputs
exercised in this development: comma-separated, newline-terminated, no
quoting or escaping.  Type inference per column follows pandas: an all-integer
column without missing fields becomes `int64`; an all-numeric column (or one
with missing fields) becomes `float64` with `NaN` for empties; anything else
becomes `object` holding the field strings, with `NaN` for empties. -/

def isDigitCh (c : Char) : Bool := '0' ≤ c && c ≤ '9'

def natOfDigits : List Char → Nat → Nat
  | [], acc => acc
  | c :: cs, acc => natOfDigits cs (acc * 10 + (c.toNat - '0'.toNat))

def parseNatLit (cs : List Char) : Option Nat :=
  if cs ≠ [] && cs.all isDigitCh then some (natOfDigits cs 0) else none

def parseIntLit (cs : List Char) : Option Int :=
  match cs with
  | '-' :: rest => (parseNatLit rest).map (fun n => -(n : Int))
  | '+' :: rest => (parseNatLit rest).map (fun n => (n : Int))
  | _ => (parseNatLit cs).map (fun n => (n : Int))

def parseUnsignedFloat (cs : List Char) : Option PyRat :=
  match splitOnChar '.' cs with
  | [ip] => (parseNatLit ip).map (fun n => pyRatOfInt (n : Int))
  | [ip, fp] =>
    if (ip ≠ [] || fp ≠ []) && ip.all isDigitCh && fp.all isDigitCh then
      some (pyRatMk ((natOfDigits ip 0 : Int) * 10 ^ fp.length + (natOfDigits fp 0 : Int))
        (10 ^ fp.length))
    else none
  | _ => none

/-- Numeric field literal (scientific notation, `inf` and `nan` literals are
not exercised by the inputs modelled here). -/
def parseFloatLit (cs : List Char) : Option PyRat :=
  match cs with
  | '-' :: rest => (parseUnsignedFloat rest).map pyRatNeg
  | '+' :: rest => parseUnsignedFloat rest
  | _ => parseUnsignedFloat cs

inductive ColKind
  | kInt
  | kFloat
  | kObj
deriving DecidableEq

/-- Column type inference over the raw fields of one column. -/
def colKindOf (fields : List (List Char)) : ColKind :=
  let nonEmpty := fields.filter (fun f => f ≠ [])
  if nonEmpty.all (fun f => (parseIntLit f).isSome) then
    if fields.any (fun f => f = []) then .kFloat else .kInt
  else if nonEmpty.all (fun f => (parseFloatLit f).isSome) then .kFloat
  else .kObj

def dtypeOfKind : ColKind → Dtype
  | .kInt => .int64
  | .kFloat => .float64
  | .kObj => .objectD

def cellOfKind (k : ColKind) (f : List Char) : Cell :=
  match k with
  | .kInt =>
    match parseIntLit f with
    | some i => .int i
    | none => .na
  | .kFloat =>
    if f = [] then .na
    else
      match parseFloatLit f with
      | some q => .float q
      | none => .na
  | .kObj => if f = [] then .na else .str ⟨f⟩

/-- Model of `pandas.read_csv` on the simple inputs used here.  Blank lines
are skipped (`skip_blank_lines=True`), the first line is the header, and a
ragged data row is rejected (`ParserError`). -/
def read_csv_simple (text : String) : Except String Df :=
  match (splitOnChar '\n' text.data).filter (fun l => l ≠ []) with
  | [] => .error "No columns to parse from file"
  | header :: dataLines =>
    let names : List String := (splitOnChar ',' header).map (fun cs => ⟨cs⟩)
    let rawRows := dataLines.map (fun l => splitOnChar ',' l)
    if rawRows.all (fun r => r.length = names.length) then
      let kinds := (List.range names.length).map
        (fun j => colKindOf (rawRows.map (fun r => r.getD j [])))
      .ok { names := names
          , dtypes := kinds.map dtypeOfKind
          , rows := rawRows.map (fun r => List.zipWith cellOfKind kinds r) }
    else .error "Error tokenizing data"

/-- The Table Engine boundary (spec §1): the two pandas readers the script
calls.  `process_file` is parametric in the engine; concrete theorems use
`testEngine` below. -/
structure Engine where
  read_csv : String → Except String Df
  read_excel : String → Except String Df

/-- Concrete engine for the scenarios: real CSV parsing; `read_excel` fails
the way `openpyxl` does on content that is not a zip archive (all Excel
inputs exercised here are such failures). -/
def testEngine : Engine :=
  { read_csv := read_csv_simple
  , read_excel := fun _ => .error "File is not a zip file" }

/-! ### The pipeline of `process_file` (app.py lines 70-156) -/

/-- An uploaded file: its name and raw content (`file.size` is display-only
metadata and is not modelled). -/
structure UploadedFile where
  name : String
  content : String
deriving DecidableEq

/-- app.py line 71: `file_extension = os.path.splitext(file.name)[-1].lower()`. -/
def file_extension (f : UploadedFile) : String := strToLowerAscii (splitextExt f.name)

/-- app.py lines 75-78: dispatch on the lower-cased extension; `.csv` goes to
`pd.read_csv`, every other extension to `pd.read_excel`. -/
def rawLoad (eng : Engine) (f : UploadedFile) : Except String Df :=
  if file_extension f = ".csv" then eng.read_csv f.content else eng.read_excel f.content

/-- Value conversion for one cell when `convert_dtypes` retypes its column.
Only the `float64 → Int64` conversion changes a representation (an integral
float becomes an integer); every other conversion keeps the cell. -/
def convCell : Dtype → Cell → Cell
  | .intN, .float q => .int q.num
  | _, c => c

def cellIntegral : Cell → Bool
  | .na => true
  | .int _ => true
  | .float q => q.den = 1
  | .str _ => false

def cellStrOrNa : Cell → Bool
  | .na => true
  | .str _ => true
  | _ => false

/-- Target dtype chosen by `convert_dtypes` for one column: `int64 → Int64`;
`float64 → Int64` when every non-missing value is integral (pandas checks
`(arr.astype(int) == arr).all()` over the non-NaN values), else `Float64`;
`object → string` when every non-missing value is a string, else unchanged;
nullable dtypes unchanged. -/
def convTarget (dt : Dtype) (cells : List Cell) : Dtype :=
  match dt with
  | .int64 => .intN
  | .float64 => if cells.all cellIntegral then .intN else .floatN
  | .objectD => if cells.all cellStrOrNa then .stringN else .objectD
  | d => d

/-- app.py line 81: `df = df.convert_dtypes()`. -/
def convert_dtypes (df : Df) : Df :=
  let targets := (List.range df.names.length).map
    (fun j => convTarget (df.dtypes.getD j .objectD) (colCells df j))
  { names := df.names
  , dtypes := targets
  , rows := df.rows.map (fun r => List.zipWith convCell targets r) }

/-- Python `str(...)` of a cell of an object column.  After `convert_dtypes`
the missing marker in a still-object column is `numpy.nan`, and
`str(numpy.nan) = "nan"`. -/
def strCoerce : Cell → Cell
  | .na => .str "nan"
  | .int i => .str (intToStr i)
  | .float q => .str (floatRepr q)
  | .str s => .str s

/-- app.py lines 82-83: every column whose dtype is still `object` is cast
through `astype(str)`; its dtype stays `object`.  Columns that
`convert_dtypes` already retyped (including `string` columns) are untouched. -/
def astypeStrObjects (df : Df) : Df :=
  { names := df.names
  , dtypes := df.dtypes
  , rows := df.rows.map (fun r =>
      List.zipWith (fun dt c => if dt = Dtype.objectD then strCoerce c else c) df.dtypes r) }

/-- The successful load path: reader result, then lines 81-83. -/
def postLoad (df : Df) : Df := astypeStrObjects (convert_dtypes df)

/-- app.py line 86: the message shown by `st.error` when the `try` block of
lines 73-83 raises. -/
def errMsg (name cause : String) : String :=
  "❌ Error processing " ++ name ++ ": " ++ cause

/-- Lines 73-87: load with the surrounding `try/except`; a failure becomes the
user-visible error message. -/
def load (eng : Engine) (f : UploadedFile) : Except String Df :=
  match rawLoad eng f with
  | .ok df => .ok (postLoad df)
  | .error e => .error (errMsg f.name e)

/-- Keep-first deduplication with an accumulator of already-seen rows, the
semantics of `DataFrame.drop_duplicates` (missing markers compare equal, as
pandas treats NaN in `duplicated`). -/
def dedupFirstAux {α : Type} [DecidableEq α] (seen : List α) : List α → List α
  | [] => []
  | x :: xs => if x ∈ seen then dedupFirstAux seen xs else x :: dedupFirstAux (x :: seen) xs

def dedupFirst {α : Type} [DecidableEq α] (l : List α) : List α := dedupFirstAux [] l

/-- app.py lines 111-114: `drop_duplicates` plus the removed-row count
`initial_count - df.shape[0]` reported to the user. -/
def removeDuplicates (df : Df) : Df × Nat :=
  let rows := dedupFirst df.rows
  ({ names := df.names, dtypes := df.dtypes, rows := rows }, df.rows.length - rows.length)

def isNumericDtype : Dtype → Bool
  | .int64 => true
  | .float64 => true
  | .intN => true
  | .floatN => true
  | _ => false

def cellVal : Cell → Option PyRat
  | .int i => some (pyRatOfInt i)
  | .float q => some q
  | _ => none

/-- Column mean over the non-missing values (`DataFrame.mean`, which skips
NA); `none` when every value is missing. -/
def colMean (cells : List Cell) : Option PyRat :=
  let vs := cells.filterMap cellVal
  if vs.length = 0 then none else some (pyRatDivNat (vs.foldl pyRatAdd (pyRatOfInt 0)) vs.length)

/-- One column of `df[num].fillna(df[num].mean())`.  When the column has no
missing value, `fillna` copies it without validating the fill value.  When the
mean is NA (all-missing column) filling with NA is a no-op.  Otherwise a
`Float64` column is filled with the mean; an `Int64` column accepts only an
integral mean — pandas masked-array `__setitem__` validation raises
`TypeError: Invalid value '...' for dtype Int64` for a fractional one. -/
def fillColumn (dt : Dtype) (cells : List Cell) : Except String (List Cell) :=
  if cells.all (fun c => c ≠ Cell.na) then .ok cells
  else
    match colMean cells with
    | none => .ok cells
    | some m =>
      match dt with
      | .intN =>
        if m.den = 1 then .ok (cells.map (fun c => if c = Cell.na then Cell.int m.num else c))
        else .error ("Invalid value '" ++ floatRepr m ++ "' for dtype Int64")
      | .floatN => .ok (cells.map (fun c => if c = Cell.na then Cell.float m else c))
      | .float64 => .ok (cells.map (fun c => if c = Cell.na then Cell.float m else c))
      | _ => .ok cells

/-- Sequence a list of fallible column results, propagating the first error
(the order in which pandas fills the columns). -/
def seqExcept {α : Type} : List (Except String α) → Except String (List α)
  | [] => .ok []
  | .error e :: _ => .error e
  | .ok a :: rest =>
    match seqExcept rest with
    | .error e => .error e
    | .ok as => .ok (a :: as)

/-- app.py lines 117-118: select the numeric columns and fill their missing
values with the per-column means.  A `TypeError` from an integer column with a
fractional mean propagates (there is no handler around these lines) and the
frame is left unchanged because pandas raises before the assignment. -/
def fillMissingNumeric (df : Df) : Except String Df :=
  match seqExcept ((List.range df.names.length).map (fun j =>
      let dt := df.dtypes.getD j .objectD
      if isNumericDtype dt then fillColumn dt (colCells df j) else .ok (colCells df j))) with
  | .error e => .error e
  | .ok cols =>
    .ok { names := df.names
        , dtypes := df.dtypes
        , rows := (List.range df.rows.length).map (fun i => cols.map (fun c => c.getD i Cell.na)) }

/-- app.py lines 123-124: `df = df[selected_columns]`.  The multiselect only
offers existing column names, so every selected name is present (column labels
are unique; pandas mangles duplicate CSV headers on read). -/
def selectColumns (df : Df) (sel : List String) : Df :=
  let idxs := sel.map (fun n => df.names.indexOf n)
  { names := sel
  , dtypes := idxs.map (fun i => df.dtypes.getD i Dtype.objectD)
  , rows := df.rows.map (fun r => idxs.map (fun i => r.getD i Cell.na)) }

def concatAll : List String → String
  | [] => ""
  | x :: xs => x ++ concatAll xs

/-- Serialization of one cell for CSV output: missing cells print as empty
fields, integers and floats as their Python text forms. -/
def csvCell : Cell → String
  | .na => ""
  | .int i => intToStr i
  | .float q => floatRepr q
  | .str s => s

/-- app.py line 145: `df.to_csv(buffer, index=False)` — header line plus one
line per row, comma separated, each line newline-terminated. -/
def to_csv (df : Df) : String :=
  joinSep "," df.names ++ "\n"
    ++ concatAll (df.rows.map (fun r => joinSep "," (r.map csvCell) ++ "\n"))

/-- The target conversion format chosen by the radio control (line 137). -/
inductive Fmt
  | csv
  | excel
deriving DecidableEq

/-- The literal radio labels `"CSV"` and `"Excel"`. -/
def fmtLabel : Fmt → String
  | .csv => "CSV"
  | .excel => "Excel"

/-- Export bytes: CSV text, or an xlsx workbook whose content is determined by
the frame (the binary Office Open XML encoding itself is the Table Engine's). -/
inductive ExportData
  | csvBytes (s : String)
  | xlsxWorkbook (df : Df)
deriving DecidableEq

/-- The downloadable artifact of lines 139-156: file name, MIME type, bytes. -/
structure Artifact where
  file_name : String
  mime : String
  data : ExportData
deriving DecidableEq

/-- app.py lines 139-147: the conversion block.  Note line 141 builds the name
with `file.name.replace(file_extension, "." + conversion_type.lower())`, so
the replacement extension is `".csv"` or `".excel"`. -/
def convert (f : UploadedFile) (df : Df) (fmt : Fmt) : Artifact :=
  { file_name := pyReplace f.name (file_extension f) ("." ++ strToLowerAscii (fmtLabel fmt))
  , mime :=
      if fmt = .csv then "text/csv"
      else "application/vnd.openxmlformats-officedocument.spreadsheetml.sheet"
  , data :=
      match fmt with
      | .csv => .csvBytes (to_csv df)
      | .excel => .xlsxWorkbook df }

/-- The per-file user-interaction state consumed by one `process_file` run
(checkboxes, buttons, multiselect, radio; summary/visualization toggles only
drive display and are not modelled). -/
structure Options where
  cleaningEnabled : Bool
  removeDupClicked : Bool
  fillClicked : Bool
  selectedColumns : Option (List String)
  convertClicked : Bool
  conversionType : Fmt
deriving DecidableEq

/-- What one `process_file` run leaves behind: the displayed (cleaned,
projected) frame and, if conversion was requested, the download artifact. -/
structure FileResult where
  df : Df
  artifact : Option Artifact
deriving DecidableEq

/-- Per-file outcome: an error message displayed by `st.error` (the function
returns `None`, line 87), or a completed run. -/
inductive Outcome
  | failed (msg : String)
  | done (r : FileResult)
deriving DecidableEq

/-- app.py lines 70-156, one invocation of `process_file`.  Only the load
phase sits in a `try/except`; an exception in any later phase (such as the
fill `TypeError`) propagates out of the function, which `Except.error`
models. -/
def process_file (eng : Engine) (o : Options) (f : UploadedFile) : Except String Outcome :=
  match load eng f with
  | .error e => .ok (.failed e)
  | .ok df0 =>
    let df1 := if o.cleaningEnabled && o.removeDupClicked then (removeDuplicates df0).1 else df0
    match (if o.cleaningEnabled && o.fillClicked then fillMissingNumeric df1 else .ok df1) with
    | .error e => .error e
    | .ok df2 =>
      let df3 := selectColumns df2 (o.selectedColumns.getD df2.names)
      .ok (.done { df := df3
                 , artifact :=
                     if o.convertClicked then some (convert f df3 o.conversionType) else none })

/-- app.py lines 159-161: process the uploaded files in order.  An uncaught
exception aborts the script run: earlier files keep their outcomes, later
files are never processed, and the exception is reported (second component). -/
def runSession (eng : Engine) : List (UploadedFile × Options) → List Outcome × Option String
  | [] => ([], none)
  | (f, o) :: rest =>
    match process_file eng o f with
    | .error e => ([], some e)
    | .ok out => (out :: (runSession eng rest).1, (runSession eng rest).2)

/-! ### Concrete scenario data -/

/-- The empty frame (placeholder argument where a claim does not depend on the
frame). -/
def dfTriv : Df := { names := [], dtypes := [], rows := [] }

/-- The CSV scenario input of spec §8: `a,b\n1,\n2,5\n1,5\n`, uploaded as
`data.csv`. -/
def fDataCsv : UploadedFile := ⟨"data.csv", "a,b\n1,\n2,5\n1,5\n"⟩

/-- What loading `fDataCsv` produces: `read_csv` types `a` as `int64` and `b`
as `float64` (missing value present), and `convert_dtypes` retypes both to
nullable `Int64` because every non-missing value is integral. -/
def dfC2loaded : Df :=
  { names := ["a", "b"]
  , dtypes := [.intN, .intN]
  , rows := [[.int 1, .na], [.int 2, .int 5], [.int 1, .int 5]] }

/-- `dfC2loaded` after mean-filling: the missing `b` becomes integer `5`
(the mean `5.0` cast into the `Int64` column). -/
def dfC2filled : Df :=
  { names := ["a", "b"]
  , dtypes := [.intN, .intN]
  , rows := [[.int 1, .int 5], [.int 2, .int 5], [.int 1, .int 5]] }

/-- The spec-§8 pipeline on `fDataCsv`: load, remove duplicates, fill missing
numerics, export to CSV. -/
def c2result : Except String String :=
  match load testEngine fDataCsv with
  | .error e => .error e
  | .ok df =>
    match fillMissingNumeric (removeDuplicates df).1 with
    | .error e => .error e
    | .ok df2 => .ok (to_csv df2)

/-- A CSV whose `b` column loads as `Int64 [1, 2, NA]`: its mean is `1.5`,
which cannot be stored back into the `Int64` column. -/
def fC3 : UploadedFile := ⟨"nums.csv", "a,b\n1,1\n2,2\n3,\n"⟩

/-- `fC3` after loading. -/
def dfC3 : Df :=
  { names := ["a", "b"]
  , dtypes := [.intN, .intN]
  , rows := [[.int 1, .int 1], [.int 2, .int 2], [.int 3, .na]] }

/-- A file whose extension is neither `.csv` nor a readable workbook. -/
def fTxt : UploadedFile := ⟨"data.txt", "hello"⟩

/-- A well-formed single-column CSV. -/
def fGood : UploadedFile := ⟨"ok.csv", "a\n1\n"⟩

/-- A CSV with a text column containing a missing field. -/
def fStrCol : UploadedFile := ⟨"names.csv", "a,b\nx,1\n,2\n"⟩

/-- `fStrCol` after loading: the text column becomes nullable `string` dtype
and keeps its missing value. -/
def dfStrCol : Df :=
  { names := ["a", "b"]
  , dtypes := [.stringN, .intN]
  , rows := [[.str "x", .int 1], [.na, .int 2]] }

/-- No interaction: cleaning off, nothing clicked. -/
def optsNone : Options := ⟨false, false, false, none, false, .csv⟩

/-- Cleaning enabled and the fill-missing-values button clicked. -/
def optsFill : Options := ⟨true, false, true, none, false, .csv⟩

/-- A frame from a mixed-type (Excel-style) object column, for the witness of
the amended C10: `convert_dtypes` leaves it object-typed. -/
def dfMix : Df :=
  { names := ["m"], dtypes := [.objectD], rows := [[.int 1], [.str "a"], [.na]] }

/-- A three-row frame whose first and last rows coincide. -/
def dfDup : Df :=
  { names := ["a"], dtypes := [.intN], rows := [[.int 1], [.int 2], [.int 1]] }

/-- A small well-formed two-column frame. -/
def dfTwo : Df :=
  { names := ["a", "b"], dtypes := [.intN, .stringN], rows := [[.int 1, .str "x"]] }

/-! ### Generic lemmas: keep-first deduplication -/

theorem dedupFirstAux_sublist {α : Type} [DecidableEq α] (seen : List α) (l : List α) :
    (dedupFirstAux seen l).Sublist l := by
  induction l generalizing seen with
  | nil => simp [dedupFirstAux]
  | cons x xs ih =>
    by_cases hx : x ∈ seen
    · simp only [dedupFirstAux, if_pos hx]
      exact (ih seen).cons x
    · simp only [dedupFirstAux, if_neg hx]
      exact (ih (x :: seen)).cons₂ x

theorem mem_dedupFirstAux {α : Type} [DecidableEq α] (seen : List α) (l : List α) (a : α) :
    a ∈ dedupFirstAux seen l ↔ a ∈ l ∧ a ∉ seen := by
  induction l generalizing seen with
  | nil => simp [dedupFirstAux]
  | cons x xs ih =>
    by_cases hx : x ∈ seen
    · simp only [dedupFirstAux, if_pos hx, ih, List.mem_cons]
      constructor
      · rintro ⟨h1, h2⟩; exact ⟨Or.inr h1, h2⟩
      · rintro ⟨h1, h2⟩
        rcases h1 with h1 | h1
        · exact absurd (h1 ▸ hx) h2
        · exact ⟨h1, h2⟩
    · simp only [dedupFirstAux, if_neg hx, List.mem_cons, ih]
      by_cases hax : a = x
      · simp [hax, hx]
      · simp [hax]

theorem dedupFirstAux_nodup {α : Type} [DecidableEq α] (seen : List α) (l : List α) :
    (dedupFirstAux seen l).Nodup := by
  induction l generalizing seen with
  | nil => simp [dedupFirstAux]
  | cons x xs ih =>
    by_cases hx : x ∈ seen
    · simp only [dedupFirstAux, if_pos hx]; exact ih seen
    · simp only [dedupFirstAux, if_neg hx, List.nodup_cons]
      refine ⟨?_, ih (x :: seen)⟩
      intro hmem
      exact ((mem_dedupFirstAux (x :: seen) xs x).mp hmem).2 (List.mem_cons_self x seen)

theorem dedupFirstAux_eq_self {α : Type} [DecidableEq α] {seen l : List α}
    (h1 : l.Nodup) (h2 : ∀ a ∈ l, a ∉ seen) : dedupFirstAux seen l = l := by
  induction l generalizing seen with
  | nil => simp [dedupFirstAux]
  | cons x xs ih =>
    have hx : x ∉ seen := h2 x (List.mem_cons_self x xs)
    rcases List.nodup_cons.mp h1 with ⟨hxxs, hxs⟩
    simp only [dedupFirstAux, if_neg hx]
    congr 1
    refine ih hxs ?_
    intro a ha
    simp only [List.mem_cons]
    rintro (rfl | hmem)
    · exact hxxs ha
    · exact h2 a (List.mem_cons_of_mem x ha) hmem

theorem dedupFirstAux_append_dup {α : Type} [DecidableEq α] (r : α) :
    ∀ (l₁ : List α) (seen l₂ : List α), (r ∈ l₁ ∨ r ∈ seen) →
      dedupFirstAux seen (l₁ ++ r :: l₂) = dedupFirstAux seen (l₁ ++ l₂) := by
  intro l₁
  induction l₁ with
  | nil =>
    intro seen l₂ h
    rcases h with h | h
    · exact absurd h (List.not_mem_nil r)
    · simp [dedupFirstAux, if_pos h]
  | cons x xs ih =>
    intro seen l₂ h
    by_cases hx : x ∈ seen
    · simp only [List.cons_append, dedupFirstAux, if_pos hx]
      refine ih seen l₂ ?_
      rcases h with h | h
      · rcases List.mem_cons.mp h with rfl | hm
        · exact Or.inr hx
        · exact Or.inl hm
      · exact Or.inr h
    · simp only [List.cons_append, dedupFirstAux, if_neg hx]
      congr 1
      refine ih (x :: seen) l₂ ?_
      rcases h with h | h
      · rcases List.mem_cons.mp h with rfl | hm
        · exact Or.inr (List.mem_cons_self r seen)
        · exact Or.inl hm
      · exact Or.inr (List.mem_cons_of_mem x h)

theorem dedupFirst_sublist {α : Type} [DecidableEq α] (l : List α) : (dedupFirst l).Sublist l :=
  dedupFirstAux_sublist [] l

theorem mem_dedupFirst {α : Type} [DecidableEq α] (l : List α) (a : α) :
    a ∈ dedupFirst l ↔ a ∈ l := by
  simp [dedupFirst, mem_dedupFirstAux]

theorem dedupFirst_nodup {α : Type} [DecidableEq α] (l : List α) : (dedupFirst l).Nodup :=
  dedupFirstAux_nodup [] l

theorem dedupFirst_eq_self {α : Type} [DecidableEq α] {l : List α} (h : l.Nodup) :
    dedupFirst l = l :=
  dedupFirstAux_eq_self h (by simp)

theorem dedupFirst_idem {α : Type} [DecidableEq α] (l : List α) :
    dedupFirst (dedupFirst l) = dedupFirst l :=
  dedupFirst_eq_self (dedupFirst_nodup l)

theorem dedupFirst_append_dup {α : Type} [DecidableEq α] {l₁ : List α} {r : α} (l₂ : List α)
    (h : r ∈ l₁) : dedupFirst (l₁ ++ r :: l₂) = dedupFirst (l₁ ++ l₂) :=
  dedupFirstAux_append_dup r l₁ [] l₂ (Or.inl h)

/-! ### Generic lemmas: indexing -/

theorem map_eq_self_of {α : Type} {f : α → α} {l : List α} (h : ∀ x ∈ l, f x = x) :
    l.map f = l := by
  induction l with
  | nil => rfl
  | cons x xs ih =>
    simp only [List.map_cons, h x (List.mem_cons_self x xs)]
    rw [ih (fun a ha => h a (List.mem_cons_of_mem x ha))]

theorem getD_range_map {α : Type} (l : List α) (d : α) :
    (List.range l.length).map (fun i => l.getD i d) = l := by
  apply List.ext_getElem (by simp)
  intro i h1 h2
  simp only [List.getElem_map, List.getElem_range]
  exact List.getD_eq_getElem l d h2

theorem getD_map_lt {α β : Type} (f : α → β) (l : List α) {j : Nat} (h : j < l.length)
    (d : α) (d' : β) : (l.map f).getD j d' = f (l.getD j d) := by
  rw [List.getD_eq_getElem _ _ (by simpa using h), List.getD_eq_getElem _ _ h,
    List.getElem_map]

theorem getD_zipWith_lt {α β γ : Type} (f : α → β → γ) (as : List α) (bs : List β) {j : Nat}
    (h1 : j < as.length) (h2 : j < bs.length) (da : α) (db : β) (dc : γ) :
    (List.zipWith f as bs).getD j dc = f (as.getD j da) (bs.getD j db) := by
  have hz : j < (List.zipWith f as bs).length := by
    simp only [List.length_zipWith, lt_min_iff]; exact ⟨h1, h2⟩
  rw [List.getD_eq_getElem _ _ hz, List.getD_eq_getElem _ _ h1, List.getD_eq_getElem _ _ h2,
    List.getElem_zipWith]

theorem indexOf_getElem_of_nodup {α : Type} [DecidableEq α] {l : List α} (h : l.Nodup)
    {i : Nat} (hi : i < l.length) : l.indexOf l[i] = i := by
  have hmem : l[i] ∈ l := List.getElem_mem hi
  have hlt : l.indexOf l[i] < l.length := List.indexOf_lt_length.mpr hmem
  exact h.getElem_inj_iff.mp (List.getElem_indexOf hlt)

theorem indexOf_map_self {α : Type} [DecidableEq α] {l : List α} (h : l.Nodup) :
    l.map (fun a => l.indexOf a) = List.range l.length := by
  apply List.ext_getElem (by simp)
  intro i h1 h2
  simp only [List.getElem_map, List.getElem_range]
  exact indexOf_getElem_of_nodup h (by simpa using h1)

/-! ### Generic lemmas: sequencing column results -/

theorem seqExcept_ok_length {α : Type} {l : List (Except String α)} {as : List α}
    (h : seqExcept l = .ok as) : as.length = l.length := by
  induction l generalizing as with
  | nil =>
    simp only [seqExcept] at h
    cases h; rfl
  | cons hd tl ih =>
    cases hd with
    | error e => simp [seqExcept] at h
    | ok a =>
      simp only [seqExcept] at h
      cases htl : seqExcept tl with
      | error e => rw [htl] at h; exact absurd h (by simp)
      | ok as2 =>
        rw [htl] at h
        cases h
        simp [ih htl]

theorem seqExcept_ok_getElem {α : Type} {l : List (Except String α)} {as : List α}
    (h : seqExcept l = .ok as) {j : Nat} (hj : j < l.length) (hj2 : j < as.length) :
    l[j] = Except.ok (as[j]) := by
  induction l generalizing as j with
  | nil => exact absurd hj (by simp)
  | cons hd tl ih =>
    cases hd with
    | error e => simp [seqExcept] at h
    | ok a =>
      simp only [seqExcept] at h
      cases htl : seqExcept tl with
      | error e => rw [htl] at h; exact absurd h (by simp)
      | ok as2 =>
        rw [htl] at h
        cases h
        cases j with
        | zero => rfl
        | succ k =>
          simp only [List.getElem_cons_succ]
          exact ih htl (by simpa using hj) (by simpa using hj2)

/-! ### Well-formedness preservation and column views -/

theorem colCells_length (df : Df) (j : Nat) : (colCells df j).length = df.rows.length := by
  simp [colCells]

theorem convert_dtypes_names (df : Df) : (convert_dtypes df).names = df.names := rfl

theorem convert_dtypes_dtypes_length (df : Df) :
    (convert_dtypes df).dtypes.length = df.names.length := by
  simp [convert_dtypes]

theorem convert_dtypes_wf {df : Df} (h : df.WF) : (convert_dtypes df).WF := by
  refine ⟨by simp [convert_dtypes], ?_⟩
  intro r hr
  simp only [convert_dtypes, List.mem_map] at hr
  rcases hr with ⟨r0, hr0, rfl⟩
  simp only [convert_dtypes, List.length_zipWith, List.length_map, List.length_range]
  rw [h.2 r0 hr0]
  exact min_self _

theorem astypeStrObjects_names (df : Df) : (astypeStrObjects df).names = df.names := rfl

theorem astypeStrObjects_dtypes (df : Df) : (astypeStrObjects df).dtypes = df.dtypes := rfl

theorem astypeStrObjects_wf {df : Df} (h : df.WF) : (astypeStrObjects df).WF := by
  refine ⟨h.1, ?_⟩
  intro r hr
  simp only [astypeStrObjects, List.mem_map] at hr
  rcases hr with ⟨r0, hr0, rfl⟩
  simp only [List.length_zipWith]
  rw [h.2 r0 hr0, h.1]
  exact min_self _

theorem colCells_astype {df : Df} (h : df.WF) {j : Nat} (hj : j < df.names.length) :
    colCells (astypeStrObjects df) j
      = if df.dtypes.getD j .objectD = .objectD
        then (colCells df j).map strCoerce else colCells df j := by
  have hstep : colCells (astypeStrObjects df) j
      = df.rows.map (fun r =>
          if df.dtypes.getD j .objectD = Dtype.objectD
          then strCoerce (r.getD j Cell.na) else r.getD j Cell.na) := by
    simp only [colCells, astypeStrObjects, List.map_map]
    refine List.map_congr_left ?_
    intro r hr
    simp only [Function.comp_apply]
    rw [getD_zipWith_lt _ _ _ (h.1 ▸ hj) ((h.2 r hr) ▸ hj) Dtype.objectD Cell.na Cell.na]
  rw [hstep]
  by_cases hdt : df.dtypes.getD j Dtype.objectD = Dtype.objectD
  · simp only [if_pos hdt, colCells, List.map_map]
    rfl
  · simp only [if_neg hdt, colCells]

theorem fillMissingNumeric_ok_fields {df out : Df} (hok : fillMissingNumeric df = .ok out) :
    out.names = df.names ∧ out.dtypes = df.dtypes := by
  unfold fillMissingNumeric at hok
  cases hseq : seqExcept ((List.range df.names.length).map (fun j =>
      let dt := df.dtypes.getD j .objectD
      if isNumericDtype dt then fillColumn dt (colCells df j) else .ok (colCells df j))) with
  | error e => rw [hseq] at hok; exact absurd hok (by simp)
  | ok cols =>
    rw [hseq] at hok
    cases hok
    exact ⟨rfl, rfl⟩

theorem fillMissingNumeric_preserves_nonNumeric {df out : Df}
    (hok : fillMissingNumeric df = .ok out) {j : Nat} (hj : j < df.names.length)
    (hnn : isNumericDtype (df.dtypes.getD j .objectD) = false) :
    colCells out j = colCells df j := by
  unfold fillMissingNumeric at hok
  cases hseq : seqExcept ((List.range df.names.length).map (fun j =>
      let dt := df.dtypes.getD j .objectD
      if isNumericDtype dt then fillColumn dt (colCells df j) else .ok (colCells df j))) with
  | error e => rw [hseq] at hok; exact absurd hok (by simp)
  | ok cols =>
    rw [hseq] at hok
    cases hok
    have hlen : cols.length = df.names.length := by
      have := seqExcept_ok_length hseq
      simpa using this
    have hjc : j < cols.length := hlen ▸ hj
    have hcol : cols[j] = colCells df j := by
      have hjl : j < ((List.range df.names.length).map (fun j =>
          let dt := df.dtypes.getD j .objectD
          if isNumericDtype dt then fillColumn dt (colCells df j)
          else .ok (colCells df j))).length := by simpa using hj
      have := seqExcept_ok_getElem hseq hjl hjc
      simp only [List.getElem_map, List.getElem_range, hnn] at this
      rw [if_neg (by simp [hnn])] at this
      exact (Except.ok.injEq _ _ ▸ this).symm
  -- the j-th produced column is the untouched original column
    have hrebuild : colCells
        { names := df.names, dtypes := df.dtypes
        , rows := (List.range df.rows.length).map
            (fun i => cols.map (fun c => c.getD i Cell.na)) } j
        = (List.range df.rows.length).map (fun i => (cols.getD j []).getD i Cell.na) := by
      simp only [colCells, List.map_map]
      refine List.map_congr_left ?_
      intro i hi
      simp only [Function.comp_apply]
      rw [getD_map_lt _ _ hjc []]
    rw [hrebuild]
    rw [List.getD_eq_getElem _ _ hjc, hcol]
    have hl2 : (colCells df j).length = df.rows.length := colCells_length df j
    rw [← hl2, getD_range_map]

/-! ### Claims -/

/-- C1: the claim states the export artifact is named `<stem>.xlsx` when Excel
is chosen.  Evaluating the code at the failing input shows line 141 produces
`<stem>.excel` instead (while the MIME type is the Office Open XML spreadsheet
one), because the replacement string is `"." + "Excel".lower()`; the CSV
target does yield `<stem>.csv` here. -/
theorem c1_export_filename_bug :
    (convert fDataCsv dfTriv .excel).file_name = "data.excel"
    ∧ (convert fDataCsv dfTriv .excel).file_name ≠ "data.xlsx"
    ∧ (convert fDataCsv dfTriv .excel).mime
      = "application/vnd.openxmlformats-officedocument.spreadsheetml.sheet"
    ∧ (convert fDataCsv dfTriv .csv).file_name = "data.csv" := by decide

/-- C2 (counterexample): on the spec-§8 scenario input the pipeline exports
`a,b\n1,5\n2,5\n1,5\n`, not the claimed `a,b\n1,5.0\n2,5.0\n1,5.0\n`:
`convert_dtypes` retypes column `b` to nullable Int64, so the filled mean is
stored and serialized as the integer `5`. -/
theorem c2_scenario_counterexample :
    c2result = .ok "a,b\n1,5\n2,5\n1,5\n"
    ∧ c2result ≠ .ok "a,b\n1,5.0\n2,5.0\n1,5.0\n" := by decide

/-- C2 (amended): the scenario with the bytes the code actually produces —
load types both columns Int64, `removeDuplicates` removes 0 rows,
`fillMissingNumeric` sets row 1's `b` to integer 5 (the mean 5.0 cast into
the Int64 column), and CSV export yields `a,b\n1,5\n2,5\n1,5\n`. -/
theorem c2_scenario_amended :
    load testEngine fDataCsv = .ok dfC2loaded
    ∧ removeDuplicates dfC2loaded = (dfC2loaded, 0)
    ∧ fillMissingNumeric dfC2loaded = .ok dfC2filled
    ∧ to_csv dfC2filled = "a,b\n1,5\n2,5\n1,5\n" := by decide

/-- C3: the claim says every numeric column with at least one non-missing
value is left with no missing values.  Evaluating the code at the failing
input `nums.csv` shows column `b` loads as Int64 `[1, 2, NA]` (so it has both
a missing and a non-missing value), yet `fillMissingNumeric` raises
`TypeError: Invalid value '1.5' for dtype Int64` instead of filling it: the
mean 1.5 cannot be stored into the nullable-integer column that
`convert_dtypes` created. -/
theorem c3_fill_type_error :
    load testEngine fC3 = .ok dfC3
    ∧ Cell.na ∈ colCells dfC3 1
    ∧ Cell.int 1 ∈ colCells dfC3 1
    ∧ fillMissingNumeric dfC3 = .error "Invalid value '1.5' for dtype Int64" := by decide

/-- C4: `removeDuplicates` is idempotent — applied to its own output it
returns the same table and a removed-count of zero. -/
theorem c4_removeDuplicates_idempotent (df : Df) :
    removeDuplicates (removeDuplicates df).1 = ((removeDuplicates df).1, 0) := by
  unfold removeDuplicates
  simp only [dedupFirst_idem, Nat.sub_self]

/-- C5: `load` dispatches on the lower-cased file-name extension — `.csv`
goes to the CSV reader, everything else to the Excel reader — and a reader
failure surfaces as an error whose message contains both the file name and
the underlying cause. -/
theorem c5_load_dispatch_and_error (eng : Engine) (f : UploadedFile) :
    (file_extension f = ".csv" → rawLoad eng f = eng.read_csv f.content)
    ∧ (file_extension f ≠ ".csv" → rawLoad eng f = eng.read_excel f.content)
    ∧ (∀ e, rawLoad eng f = .error e →
        load eng f = .error (errMsg f.name e)
        ∧ (∃ p q, errMsg f.name e = p ++ f.name ++ q)
        ∧ (∃ p q, errMsg f.name e = p ++ e ++ q)) := by
  refine ⟨fun h => by simp [rawLoad, h], fun h => by simp [rawLoad, h], ?_⟩
  intro e he
  refine ⟨by simp [load, he], ⟨"❌ Error processing ", ": " ++ e, ?_⟩,
    ⟨"❌ Error processing " ++ f.name ++ ": ", "", ?_⟩⟩
  · simp [errMsg, String.append_assoc]
  · simp [errMsg]

/-- Witness for C5 at a concrete input: `data.txt` is not dispatched to the
CSV reader. -/
theorem c5_witness :
    file_extension fTxt ≠ ".csv"
    ∧ rawLoad testEngine fTxt = testEngine.read_excel fTxt.content :=
  ⟨by decide, (c5_load_dispatch_and_error testEngine fTxt).2.1 (by decide)⟩

/-- C6 (counterexample): the claim says an error in one file's pipeline is
non-fatal and the remaining files are processed.  With `nums.csv` first
(cleaning enabled, fill clicked — its fill raises the Int64 `TypeError`,
which no handler catches) and a well-formed `ok.csv` second, the session run
aborts: no outcome is produced for either file, so the outcome list does not
cover the uploaded files. -/
theorem c6_counterexample :
    runSession testEngine [(fC3, optsFill), (fGood, optsNone)]
      = ([], some "Invalid value '1.5' for dtype Int64")
    ∧ (runSession testEngine [(fC3, optsFill), (fGood, optsNone)]).1.length
      ≠ [(fC3, optsFill), (fGood, optsNone)].length := by decide

/-- C6 (amended): only load-phase errors are non-fatal — the file's outcome
is the error message and the remaining files are processed unaffected; an
exception escaping any later phase (such as the fill `TypeError`) aborts the
script run, leaving the remaining files unprocessed. -/
theorem c6_load_error_nonfatal (eng : Engine) (f : UploadedFile) (o : Options)
    (items : List (UploadedFile × Options)) :
    (∀ e, rawLoad eng f = .error e →
      process_file eng o f = .ok (.failed (errMsg f.name e))
      ∧ runSession eng ((f, o) :: items)
        = (Outcome.failed (errMsg f.name e) :: (runSession eng items).1,
           (runSession eng items).2))
    ∧ (∀ e, process_file eng o f = .error e →
        runSession eng ((f, o) :: items) = ([], some e)) := by
  constructor
  · intro e he
    have hl : load eng f = .error (errMsg f.name e) := by simp [load, he]
    have hpf : process_file eng o f = .ok (.failed (errMsg f.name e)) := by
      simp [process_file, hl]
    exact ⟨hpf, by simp [runSession, hpf]⟩
  · intro e he
    simp [runSession, he]

/-- Witness for C6 (amended) at a concrete input: `data.txt` fails to load,
its outcome is the error message naming `data.txt`, and the following file's
processing is unaffected. -/
theorem c6_witness :
    rawLoad testEngine fTxt = .error "File is not a zip file"
    ∧ (process_file testEngine optsNone fTxt
        = .ok (.failed (errMsg fTxt.name "File is not a zip file"))
      ∧ runSession testEngine ((fTxt, optsNone) :: [(fGood, optsNone)])
        = (Outcome.failed (errMsg fTxt.name "File is not a zip file")
            :: (runSession testEngine [(fGood, optsNone)]).1,
           (runSession testEngine [(fGood, optsNone)]).2)) :=
  ⟨by decide, (c6_load_error_nonfatal testEngine fTxt optsNone
    [(fGood, optsNone)]).1 "File is not a zip file" (by decide)⟩

/-- C7: `removeDuplicates` compares rows by full-row equality, keeps the
first occurrence of each row (dropping every later duplicate), preserves the
relative order of the remaining rows (sublist), and reports
`removedCount = length before - length after`. -/
theorem c7_removeDuplicates_characterization (df : Df) :
    (removeDuplicates df).1.names = df.names
    ∧ (removeDuplicates df).1.dtypes = df.dtypes
    ∧ ((removeDuplicates df).1.rows).Sublist df.rows
    ∧ ((removeDuplicates df).1.rows).Nodup
    ∧ (∀ r, r ∈ (removeDuplicates df).1.rows ↔ r ∈ df.rows)
    ∧ (removeDuplicates df).2 = df.rows.length - (removeDuplicates df).1.rows.length
    ∧ (∀ l₁ r l₂, df.rows = l₁ ++ r :: l₂ → r ∈ l₁ →
        (removeDuplicates df).1.rows = dedupFirst (l₁ ++ l₂)) := by
  refine ⟨rfl, rfl, dedupFirst_sublist _, dedupFirst_nodup _,
    fun r => mem_dedupFirst _ _, rfl, ?_⟩
  intro l₁ r l₂ hrows hmem
  show dedupFirst df.rows = _
  rw [hrows]
  exact dedupFirst_append_dup l₂ hmem

/-- Witness for C7 at a concrete input: in a table whose third row repeats
the first, the duplicate after the first occurrence is dropped. -/
theorem c7_witness :
    dfDup.rows = [[Cell.int 1], [Cell.int 2]] ++ [Cell.int 1] :: []
    ∧ [Cell.int 1] ∈ [[Cell.int 1], [Cell.int 2]]
    ∧ (removeDuplicates dfDup).1.rows = dedupFirst ([[Cell.int 1], [Cell.int 2]] ++ []) :=
  ⟨rfl, by decide, (c7_removeDuplicates_characterization dfDup).2.2.2.2.2.2
    [[Cell.int 1], [Cell.int 2]] [Cell.int 1] [] rfl (by decide)⟩

/-- C8: selecting a table's own full ordered column list is the identity
transformation (column labels are unique, spec §3 invariant). -/
theorem c8_selectColumns_identity (df : Df) (hwf : df.WF) (hnd : df.names.Nodup) :
    selectColumns df df.names = df := by
  cases df with
  | mk ns ds rs =>
    have hidx : ns.map (fun n => ns.indexOf n) = List.range ns.length :=
      indexOf_map_self hnd
    have h1 : ds.length = ns.length := hwf.1
    simp only [selectColumns, Df.mk.injEq]
    refine ⟨trivial, ?_, ?_⟩
    · rw [hidx, ← h1, getD_range_map]
    · refine map_eq_self_of ?_
      intro r hr
      have h2 : r.length = ns.length := hwf.2 r hr
      rw [hidx, ← h2, getD_range_map]

/-- Witness for C8 at a concrete input. -/
theorem c8_witness :
    dfTwo.WF ∧ dfTwo.names.Nodup ∧ selectColumns dfTwo dfTwo.names = dfTwo :=
  ⟨by decide, by decide, c8_selectColumns_identity dfTwo (by decide) (by decide)⟩

/-- C9: selecting the empty column list does not fail — it yields a table
with zero columns and the input's row count. -/
theorem c9_selectColumns_empty (df : Df) :
    (selectColumns df []).names = [] ∧ (selectColumns df []).dtypes = []
    ∧ (selectColumns df []).rows.length = df.rows.length := by
  refine ⟨rfl, rfl, ?_⟩
  simp [selectColumns]

/-- C10 (counterexample): the claim says that after load no string column
contains a missing value and that missing cells of text-like columns become
the literal `"<NA>"`.  Loading `names.csv` refutes both: its text column
becomes the nullable `string` dtype with the missing value preserved, and no
`"<NA>"` string appears. -/
theorem c10_counterexample :
    load testEngine fStrCol = .ok dfStrCol
    ∧ dfStrCol.dtypes.getD 0 .objectD = .stringN
    ∧ Cell.na ∈ colCells dfStrCol 0
    ∧ Cell.str "<NA>" ∉ colCells dfStrCol 0 := by decide

/-- C10 (amended): after the post-load coercion, a column that is still
object-typed after `convert_dtypes` is cast through `str`, which turns each
missing cell into the non-missing string `"nan"` (so such columns hold no
missing value); a column `convert_dtypes` retyped to the nullable string
dtype is left untouched, missing values included; and `fillMissingNumeric`
never changes a non-numeric column. -/
theorem c10_postload_coercion (df : Df) (h : df.WF) (j : Nat)
    (hj : j < df.names.length) :
    ((convert_dtypes df).dtypes.getD j .objectD = .objectD →
      colCells (postLoad df) j = (colCells (convert_dtypes df) j).map strCoerce
      ∧ Cell.na ∉ colCells (postLoad df) j)
    ∧ ((convert_dtypes df).dtypes.getD j .objectD = .stringN →
      colCells (postLoad df) j = colCells (convert_dtypes df) j)
    ∧ (∀ out, isNumericDtype ((postLoad df).dtypes.getD j .objectD) = false →
        fillMissingNumeric (postLoad df) = .ok out →
        colCells out j = colCells (postLoad df) j) := by
  have hcwf : (convert_dtypes df).WF := convert_dtypes_wf h
  have hj2 : j < (convert_dtypes df).names.length := by
    rw [convert_dtypes_names]; exact hj
  have hca := colCells_astype hcwf hj2
  refine ⟨?_, ?_, ?_⟩
  · intro hobj
    rw [show postLoad df = astypeStrObjects (convert_dtypes df) from rfl, hca, if_pos hobj]
    refine ⟨rfl, ?_⟩
    intro hmem
    rcases List.mem_map.mp hmem with ⟨c, _, hc⟩
    cases c <;> simp [strCoerce] at hc
  · intro hstr
    rw [show postLoad df = astypeStrObjects (convert_dtypes df) from rfl, hca,
      if_neg (fun hh => Dtype.noConfusion (hstr ▸ hh))]
  · intro out hnn hok
    have hj3 : j < (postLoad df).names.length := by
      show j < (astypeStrObjects (convert_dtypes df)).names.length
      rw [astypeStrObjects_names, convert_dtypes_names]; exact hj
    exact fillMissingNumeric_preserves_nonNumeric hok hj3 hnn

/-- Witness for C10 (amended) at a concrete input: a mixed-type column stays
object-typed through `convert_dtypes`, and after the `str` cast it holds no
missing value. -/
theorem c10_witness :
    (convert_dtypes dfMix).dtypes.getD 0 .objectD = .objectD
    ∧ (colCells (postLoad dfMix) 0 = (colCells (convert_dtypes dfMix) 0).map strCoerce
       ∧ Cell.na ∉ colCells (postLoad dfMix) 0) :=
  ⟨by decide, (c10_postload_coercion dfMix (by decide) 0 (by decide)).1 (by decide)⟩

end DataSweeper
